import Mathlib

/-!
Verification development for the ddcpy monitor-control scripts.

The embedding models the two Python modules:
  * `m1ddc/m1ddc.py` — the `M1DDCControl` wrapper around the external
    `m1ddc` utility; and
  * `monitor_input_switch.py` — the orchestration script.

Strings are modelled as `List Char` (ASCII fragment of Python `str`).
The external utility is modelled as an environment mapping an argument
list to a response (exit code, stdout, stderr).  Stateless commands use
a fixed environment `Env`; the readiness poll, whose successive identical
invocations may return different answers, is modelled by a sequence of
responses indexed by poll number.  Every subprocess invocation performed
by a modelled operation is recorded in an output trace.  Python machine
integers are unbounded, so `Int`/`Nat` are exact.  Python exceptions are
modelled as `Except` error results; `sys.exit` is a distinct outcome.
The `M1DDCControl.__init__` binary lookup is assumed to have succeeded
(all modelled operations act on a constructed instance).
-/

namespace Ddcpy

/-- Python whitespace (`str.strip`, regex `\s`), ASCII fragment:
space, tab, newline, carriage return, vertical tab, form feed. -/
def pyWs (c : Char) : Bool :=
  c.toNat == 32 || c.toNat == 9 || c.toNat == 10 ||
  c.toNat == 13 || c.toNat == 11 || c.toNat == 12

/-- ASCII decimal digit (regex `\d`). -/
def isDig (c : Char) : Bool :=
  48 ≤ c.toNat && c.toNat ≤ 57

/-- Character class `[\w-]` of the display-list regex, ASCII fragment:
letters, digits, underscore, hyphen. -/
def wordHy (c : Char) : Bool :=
  (48 ≤ c.toNat && c.toNat ≤ 57) || (65 ≤ c.toNat && c.toNat ≤ 90) ||
  (97 ≤ c.toNat && c.toNat ≤ 122) || c.toNat == 95 || c.toNat == 45

/-- Drop the longest suffix of `l` whose characters satisfy `p`. -/
def dropTrailing (p : Char → Bool) (l : List Char) : List Char :=
  (l.reverse.dropWhile p).reverse

/-- Python `str.strip()`: remove leading and trailing whitespace. -/
def pyStrip (l : List Char) : List Char :=
  dropTrailing pyWs (l.dropWhile pyWs)

/-- Value of an ASCII digit character. -/
def digitVal (c : Char) : Nat := c.toNat - 48

/-- Numeric value of a list of ASCII digit characters (most significant
first), as accumulated by Python `int` on a digit string. -/
def digitsToNat (ds : List Char) : Nat :=
  ds.foldl (fun a c => 10 * a + digitVal c) 0

/-- The ASCII character of a decimal digit. -/
def digitChar (d : Nat) : Char := Char.ofNat (48 + d)

/-- Decimal digit characters of `n`, most significant first; `fuel`
bounds the recursion (any `fuel` with `n < 10 ^ fuel` is enough). -/
def natReprGo (fuel : Nat) (n : Nat) : List Char :=
  match fuel with
  | 0 => []
  | f + 1 =>
    if n < 10 then [digitChar n]
    else natReprGo f (n / 10) ++ [digitChar (n % 10)]

/-- Python `str(n)` for a nonnegative integer. -/
def natRepr (n : Nat) : List Char := natReprGo (n + 1) n

/-- Python `str(v)` for an integer. -/
def intRepr (v : Int) : List Char :=
  if v < 0 then '-' :: natRepr v.natAbs else natRepr v.natAbs

/-- Python dynamic values that flow through the modelled code:
integers, strings, and `None`. -/
inductive PyVal where
  | int (n : Int)
  | str (s : List Char)
  | none
  deriving DecidableEq, Repr

/-- Python exceptions raised by the modelled code. -/
inductive PyErr where
  | valueError
  | typeError
  | keyError
  deriving DecidableEq, Repr

/-- Termination of a control run: `sys.exit(code)` or an uncaught
Python exception. -/
inductive RunExit where
  | exit (code : Nat)
  | exc (e : PyErr)
  deriving DecidableEq, Repr

/-- No two consecutive underscores (part of Python `int` literal
validity for strings). -/
def noDoubleUnderscore : List Char → Bool
  | c1 :: c2 :: r => !(c1 == '_' && c2 == '_') && noDoubleUnderscore (c2 :: r)
  | _ => true

/-- Validity of the body (sign removed) of a string accepted by Python
`int`: nonempty, digits possibly separated by single underscores,
starting and ending with a digit. -/
def intBodyOk (b : List Char) : Bool :=
  match b with
  | [] => false
  | c :: _ =>
    isDig c && (match b.getLast? with | some d => isDig d | Option.none => false) &&
    b.all (fun x => isDig x || x == '_') && noDoubleUnderscore b

/-- Python `int(s)` on a string: strips whitespace, accepts an optional
sign and a digit body; raises `ValueError` otherwise. -/
def pyIntParse (s : List Char) : Except PyErr Int :=
  let t := pyStrip s
  let signBody : Int × List Char :=
    match t with
    | '+' :: r => (1, r)
    | '-' :: r => (-1, r)
    | r => (1, r)
  if intBodyOk signBody.2 then
    Except.ok (signBody.1 * (digitsToNat (signBody.2.filter (fun c => !(c == '_'))) : Int))
  else Except.error PyErr.valueError

/-- Python `int(x)` where `x` is a string or `None` (the possible
results of `_run_command`): `int(None)` raises `TypeError`. -/
def pyIntOpt : Option (List Char) → Except PyErr Int
  | Option.none => Except.error PyErr.typeError
  | Option.some s => pyIntParse s

/-- Python `+` restricted to the value shapes reaching it in this code:
defined on two integers, `TypeError` on any other combination
(in particular `int + str` and `int + None`). -/
def pyAdd : PyVal → PyVal → Except PyErr Int
  | PyVal.int a, PyVal.int b => Except.ok (a + b)
  | _, _ => Except.error PyErr.typeError

/-- An argument list passed to the external utility. -/
abbrev Args := List (List Char)

/-- Trace of subprocess invocations, in order. -/
abbrev Trace := List Args

/-- One response of the external utility. -/
structure Resp where
  exitCode : Nat
  stdout : List Char
  stderr : List Char
  deriving DecidableEq, Repr

/-- The external utility as a function from argument lists to
responses (stateless part of the model). -/
abbrev Env := Args → Resp

/-- Value produced by `M1DDCControl._run_command` for one response:
the stripped stdout on exit 0, `None` (modelled as `Option.none`)
after the caught `CalledProcessError` otherwise. -/
def respValue (r : Resp) : Option (List Char) :=
  if r.exitCode = 0 then Option.some (pyStrip r.stdout) else Option.none

/-- Result value of `_run_command env args`. -/
def runValue (env : Env) (args : Args) : Option (List Char) :=
  respValue (env args)

/-- Model of `M1DDCControl._run_command`: one subprocess invocation; never
raises — on non-zero exit the error is printed and `None` returned. -/
def runCommand (env : Env) (args : Args) : Option (List Char) × Trace :=
  (runValue env args, [args])

def cDISPLAY : List Char := "display".toList
def cLIST : List Char := "list".toList
def cGET : List Char := "get".toList
def cSET : List Char := "set".toList
def cCHG : List Char := "chg".toList
def cMAX : List Char := "max".toList
def cLUMINANCE : List Char := "luminance".toList
def cCONTRAST : List Char := "contrast".toList
def cINPUT : List Char := "input".toList
def cVOLUME : List Char := "volume".toList
def cMUTE : List Char := "mute".toList

/-- Argument list of `_get`. -/
def getArgs (d prop : List Char) : Args := [cDISPLAY, d, cGET, prop]

/-- Argument list of `_get_max`. -/
def maxArgs (d prop : List Char) : Args := [cDISPLAY, d, cMAX, prop]

/-- Argument list of `_set`. -/
def setArgs (d prop vstr : List Char) : Args := [cDISPLAY, d, cSET, prop, vstr]

/-- Argument list of `_change`. -/
def chgArgs (d prop vstr : List Char) : Args := [cDISPLAY, d, cCHG, prop, vstr]

/-- Argument list of `list_displays`. -/
def listArgs : Args := [cDISPLAY, cLIST]

/-- Model of `M1DDCControl._get`. -/
def m1get (env : Env) (d prop : List Char) : Option (List Char) × Trace :=
  runCommand env (getArgs d prop)

/-- Model of `M1DDCControl._get_max`: `int(...)` of the command result; raises
`TypeError` on a failed command (`int(None)`) and `ValueError` on an
unparseable report. -/
def m1getMax (env : Env) (d prop : List Char) : Except PyErr Int × Trace :=
  (pyIntOpt (runValue env (maxArgs d prop)), [maxArgs d prop])

/-- Model of `M1DDCControl._set`. -/
def m1set (env : Env) (d prop vstr : List Char) : Option (List Char) × Trace :=
  runCommand env (setArgs d prop vstr)

/-- Model of `M1DDCControl._change`. -/
def m1chg (env : Env) (d prop vstr : List Char) : Option (List Char) × Trace :=
  runCommand env (chgArgs d prop vstr)

/-- One display record produced by `_parse_display_list`
(a dict with keys `number`, `name`, `id`). -/
structure Display where
  number : Nat
  name : List Char
  id : List Char
  deriving DecidableEq, Repr

/-- Lookup in the dict underlying a `Display` record: exactly the three
keys written by `_parse_display_list` are present. -/
def displayLookup (d : Display) (key : List Char) : Option PyVal :=
  if key = "number".toList then Option.some (PyVal.int d.number)
  else if key = "name".toList then Option.some (PyVal.str d.name)
  else if key = "id".toList then Option.some (PyVal.str d.id)
  else Option.none

/-- Name group of the regex `^\[(\d+)\]\s+(.+?)\s+\(([\w-]+)\)$` on the
region `A` lying between `]` and the `(` of the id group.  The region
must decompose as `W ++ M ++ V` with `W`, `V` nonempty whitespace and
`M` nonempty with no newline (`.` does not match a newline); Python
picks the longest `W` (greedy `\s+`) and then the shortest `M`
(lazy `.+?`).  Resolving those priorities deterministically:
if `A` has non-whitespace characters, `W` is the maximal whitespace
prefix, `V` the maximal whitespace suffix, and `M` what is left;
if `A` is all whitespace, `M` is the single character at the largest
position `w ≤ length - 2, w ≥ 1` that is not a newline. -/
def nameOf (A : List Char) : Option (List Char) :=
  let B := A.dropWhile pyWs
  if (A.takeWhile pyWs).isEmpty then Option.none
  else if B.isEmpty then
    match ((A.take (A.length - 1)).drop 1).reverse.find? (fun c => !(c.toNat == 10)) with
    | Option.some c => Option.some [c]
    | Option.none => Option.none
  else
    let V := B.reverse.takeWhile pyWs
    let core := (B.reverse.dropWhile pyWs).reverse
    if V.isEmpty then Option.none
    else if core.any (fun c => c.toNat == 10) then Option.none
    else Option.some core

/-- Step of `matchTail` past the final `)` on the reversed remainder:
the id group must be the nonempty maximal `[\w-]` run at the front of
the reversed list, followed by `(`; the rest (reversed back) goes to
`nameOf`. -/
def matchTailAfterParen (rev1 : List Char) : Option (List Char × List Char) :=
  let idR := rev1.takeWhile wordHy
  if idR.isEmpty then Option.none
  else
    match rev1.dropWhile wordHy with
    | '(' :: rest2 =>
      match nameOf rest2.reverse with
      | Option.some nm => Option.some (nm, idR.reverse)
      | Option.none => Option.none
    | _ => Option.none

/-- The matcher `matchTail` on the reversed tail: the last character must be `)`. -/
def matchTailRev : List Char → Option (List Char × List Char)
  | ')' :: rev1 => matchTailAfterParen rev1
  | _ => Option.none

/-- Tail `\s+(.+?)\s+\(([\w-]+)\)$` of the display-list regex, applied
to the characters following `]`.  The `$`/`\)` anchoring forces the id
group to be the maximal `[\w-]` run before a final `)`, immediately
preceded by `(`; the name group is delegated to `nameOf`. -/
def matchTail (r2 : List Char) : Option (List Char × List Char) :=
  matchTailRev r2.reverse

/-- Step of `parseLine` past the number group: `ds` is the maximal
digit run after `[` (it must be nonempty for `(\d+)`), and the next
character must be `]`. -/
def afterNumber (ds tail : List Char) : Option Display :=
  if ds.isEmpty then Option.none
  else
    match tail with
    | ']' :: r2 =>
      match matchTail r2 with
      | Option.some p => Option.some ⟨digitsToNat ds, p.1, p.2⟩
      | Option.none => Option.none
    | _ => Option.none

/-- The stage of `parseLine` on the stripped line: the first character must be `[`. -/
def parseStripped : List Char → Option Display
  | '[' :: rest => afterNumber (rest.takeWhile isDig) (rest.dropWhile isDig)
  | _ => Option.none

/-- One iteration of `_parse_display_list`:
`re.match(r"^\[(\d+)\]\s+(.+?)\s+\(([\w-]+)\)$", line.strip())`,
returning the display record on a match. -/
def parseLine (line : List Char) : Option Display :=
  parseStripped (pyStrip line)

/-- Python `str.split("\n")`: split at every newline, keeping empty
pieces. -/
def splitNL : List Char → List (List Char)
  | [] => [[]]
  | c :: cs =>
    match splitNL cs with
    | r :: rs => if c = '\n' then [] :: r :: rs else (c :: r) :: rs
    | [] => [[]]

/-- The accumulation loop of `_parse_display_list`: matching lines are
appended to the list, others are skipped. -/
def parseLoop : List (List Char) → List Display → List Display
  | [], acc => acc
  | l :: ls, acc =>
    match parseLine l with
    | Option.some d => parseLoop ls (acc ++ [d])
    | Option.none => parseLoop ls acc

/-- Model of `M1DDCControl._parse_display_list`. -/
def parseDisplayList (raw : List Char) : List Display :=
  parseLoop (splitNL raw) []

/-- Model of `M1DDCControl.list_displays`: parses the `display list` output when
it is truthy (non-`None`, nonempty); otherwise returns the empty
list. -/
def listDisplays (env : Env) : List Display × Trace :=
  let r := runCommand env listArgs
  (match r.1 with
   | Option.some s => if s.isEmpty then [] else parseDisplayList s
   | Option.none => [], r.2)

/-- Model of `M1DDCControl.get_luminance`. -/
def getLuminance (env : Env) (d : List Char) : Option (List Char) × Trace :=
  m1get env d cLUMINANCE

/-- Model of `M1DDCControl.get_brightness`: delegates to `get_luminance`. -/
def getBrightness (env : Env) (d : List Char) : Option (List Char) × Trace :=
  getLuminance env d

/-- Model of `M1DDCControl.get_contrast`. -/
def getContrast (env : Env) (d : List Char) : Option (List Char) × Trace :=
  m1get env d cCONTRAST

/-- Model of `M1DDCControl.get_input`. -/
def getInput (env : Env) (d : List Char) : Option (List Char) × Trace :=
  m1get env d cINPUT

/-- Model of `M1DDCControl.get_volume`. -/
def getVolume (env : Env) (d : List Char) : Option (List Char) × Trace :=
  m1get env d cVOLUME

/-- Model of `M1DDCControl.max_luminance`. -/
def maxLuminance (env : Env) (d : List Char) : Except PyErr Int × Trace :=
  m1getMax env d cLUMINANCE

/-- Model of `M1DDCControl.max_contrast`. -/
def maxContrast (env : Env) (d : List Char) : Except PyErr Int × Trace :=
  m1getMax env d cCONTRAST

/-- Model of `M1DDCControl.max_volume`. -/
def maxVolume (env : Env) (d : List Char) : Except PyErr Int × Trace :=
  m1getMax env d cVOLUME

/-- Model of `M1DDCControl.set_luminance`: queries the maximum (errors from the
query propagate), raises `ValueError` when the value is out of
`[0, max]`, and only otherwise issues the `set` command. -/
def setLuminance (env : Env) (d : List Char) (v : Int) :
    Except PyErr (Option (List Char)) × Trace :=
  let mx := maxLuminance env d
  match mx.1 with
  | Except.error e => (Except.error e, mx.2)
  | Except.ok m =>
    if v < 0 ∨ v > m then (Except.error PyErr.valueError, mx.2)
    else
      let st := m1set env d cLUMINANCE (intRepr v)
      (Except.ok st.1, mx.2 ++ st.2)

/-- Model of `M1DDCControl.set_brightness`: delegates to `set_luminance`. -/
def setBrightness (env : Env) (d : List Char) (v : Int) :
    Except PyErr (Option (List Char)) × Trace :=
  setLuminance env d v

/-- Model of `M1DDCControl.set_contrast` (same shape as `set_luminance`). -/
def setContrast (env : Env) (d : List Char) (v : Int) :
    Except PyErr (Option (List Char)) × Trace :=
  let mx := maxContrast env d
  match mx.1 with
  | Except.error e => (Except.error e, mx.2)
  | Except.ok m =>
    if v < 0 ∨ v > m then (Except.error PyErr.valueError, mx.2)
    else
      let st := m1set env d cCONTRAST (intRepr v)
      (Except.ok st.1, mx.2 ++ st.2)

/-- Model of `M1DDCControl.set_volume` (same shape as `set_luminance`). -/
def setVolume (env : Env) (d : List Char) (v : Int) :
    Except PyErr (Option (List Char)) × Trace :=
  let mx := maxVolume env d
  match mx.1 with
  | Except.error e => (Except.error e, mx.2)
  | Except.ok m =>
    if v < 0 ∨ v > m then (Except.error PyErr.valueError, mx.2)
    else
      let st := m1set env d cVOLUME (intRepr v)
      (Except.ok st.1, mx.2 ++ st.2)

/-- Model of `M1DDCControl.set_input`: no bound check. -/
def setInput (env : Env) (d : List Char) (v : Int) : Option (List Char) × Trace :=
  m1set env d cINPUT (intRepr v)

/-- The Python value returned by `_run_command` as seen by dynamic
operations: a string on success, `None` on failure. -/
def pyOfOpt : Option (List Char) → PyVal
  | Option.some s => PyVal.str s
  | Option.none => PyVal.none

/-- Model of `M1DDCControl.change_luminance`: reads the current value (a string
or `None`) and the maximum, then evaluates `value + current_value`
inside a `try` that catches only `ValueError`.  An out-of-range sum
would raise `ValueError`, be caught, logged, and turn into an implicit
`None` return; the `int + str` / `int + None` `TypeError` from the sum
is not caught and propagates. -/
def changeLuminance (env : Env) (d : List Char) (v : Int) :
    Except PyErr PyVal × Trace :=
  let cur := getLuminance env d
  let mx := maxLuminance env d
  match mx.1 with
  | Except.error e => (Except.error e, cur.2 ++ mx.2)
  | Except.ok m =>
    match pyAdd (PyVal.int v) (pyOfOpt cur.1) with
    | Except.error PyErr.valueError => (Except.ok PyVal.none, cur.2 ++ mx.2)
    | Except.error e => (Except.error e, cur.2 ++ mx.2)
    | Except.ok s =>
      if s < 0 ∨ s > m then (Except.ok PyVal.none, cur.2 ++ mx.2)
      else
        let ch := m1chg env d cLUMINANCE (intRepr v)
        (Except.ok (pyOfOpt ch.1), cur.2 ++ mx.2 ++ ch.2)

/-- Model of `M1DDCControl.change_contrast` (same shape as `change_luminance`). -/
def changeContrast (env : Env) (d : List Char) (v : Int) :
    Except PyErr PyVal × Trace :=
  let cur := getContrast env d
  let mx := maxContrast env d
  match mx.1 with
  | Except.error e => (Except.error e, cur.2 ++ mx.2)
  | Except.ok m =>
    match pyAdd (PyVal.int v) (pyOfOpt cur.1) with
    | Except.error PyErr.valueError => (Except.ok PyVal.none, cur.2 ++ mx.2)
    | Except.error e => (Except.error e, cur.2 ++ mx.2)
    | Except.ok s =>
      if s < 0 ∨ s > m then (Except.ok PyVal.none, cur.2 ++ mx.2)
      else
        let ch := m1chg env d cCONTRAST (intRepr v)
        (Except.ok (pyOfOpt ch.1), cur.2 ++ mx.2 ++ ch.2)

/-- Model of `M1DDCControl.change_volume` (same shape as `change_luminance`). -/
def changeVolume (env : Env) (d : List Char) (v : Int) :
    Except PyErr PyVal × Trace :=
  let cur := getVolume env d
  let mx := maxVolume env d
  match mx.1 with
  | Except.error e => (Except.error e, cur.2 ++ mx.2)
  | Except.ok m =>
    match pyAdd (PyVal.int v) (pyOfOpt cur.1) with
    | Except.error PyErr.valueError => (Except.ok PyVal.none, cur.2 ++ mx.2)
    | Except.error e => (Except.error e, cur.2 ++ mx.2)
    | Except.ok s =>
      if s < 0 ∨ s > m then (Except.ok PyVal.none, cur.2 ++ mx.2)
      else
        let ch := m1chg env d cVOLUME (intRepr v)
        (Except.ok (pyOfOpt ch.1), cur.2 ++ mx.2 ++ ch.2)

/-- The `INPUTS['hdmi']` code. -/
def inputHdmi : Int := 17

/-- The `INPUTS['usbc']` code. -/
def inputUsbc : Int := 49

/-- The target machine chosen on the command line; `argparse` restricts
it to the closed set `{work, mac, swap}`. -/
inductive Target where
  | work
  | mac
  | swap
  deriving DecidableEq, Repr

/-- One entry of `MACHINE_CONFS`. -/
structure MachineConf where
  input : Int
  contrast : Int
  deriving DecidableEq, Repr

/-- The `MACHINE_CONFS` table: `swap` has no entry. -/
def machineConfs : Target → Option MachineConf
  | Target.work => Option.some ⟨inputHdmi, 75⟩
  | Target.mac => Option.some ⟨inputUsbc, 75⟩
  | Target.swap => Option.none

/-- Model of `determine_display_settings`: a machine not in `MACHINE_CONFS`
terminates the run with `sys.exit(1)`. -/
def determineDisplaySettings (t : Target) : Except RunExit MachineConf :=
  match machineConfs t with
  | Option.some c => Except.ok c
  | Option.none => Except.error (RunExit.exit 1)

/-- Python `==` between a dynamic value and an integer constant, as in
`display["input"] == INPUTS['hdmi']`. -/
def pyEqInt (v : PyVal) (n : Int) : Bool :=
  match v with
  | PyVal.int m => m == n
  | _ => false

/-- Model of `swap_targets`: for each display, issues `get_input` (discarding
the result) and then reads `display["input"]` — a key the records
produced by `_parse_display_list` never contain, so the lookup raises
`KeyError` on the first display. -/
def swapTargets (env : Env) : List Display → Except RunExit Unit × Trace
  | [] => (Except.ok (), [])
  | d :: rest =>
    let g := getInput env d.id
    match displayLookup d cINPUT with
    | Option.none => (Except.error (RunExit.exc PyErr.keyError), g.2)
    | Option.some v =>
      if pyEqInt v inputHdmi then
        let s := setInput env d.id inputUsbc
        let r := swapTargets env rest
        (r.1, g.2 ++ s.2 ++ r.2)
      else if pyEqInt v inputUsbc then
        let s := setInput env d.id inputHdmi
        let r := swapTargets env rest
        (r.1, g.2 ++ s.2 ++ r.2)
      else (Except.error (RunExit.exit 1), g.2)

/-- Model of `set_display_input`: sets the input on every display, discarding
results (no exception is possible). -/
def setDisplayInput (env : Env) : List Display → Int → Trace
  | [], _ => []
  | d :: rest, v => (setInput env d.id v).2 ++ setDisplayInput env rest v

/-- The loop of `check_display_readiness`, with `polls k` the utility's
response to the `k`-th `max contrast` query.  `k` is the value of
`checks` after the pending poll and `r = 11 - k` counts the iterations
left before `checks > 10` forces `sys.exit(1)`; the exit test runs
after the poll and before the loop condition re-examines the value, so
at `r = 0` (the 11th poll) the run exits regardless of the polled
value.  Returns the number of polls performed. -/
def crGo (polls : Nat → Resp) (k : Nat) : Nat → Except RunExit Unit × Nat
  | 0 =>
    (match pyIntOpt (respValue (polls k)) with
     | Except.error e => Except.error (RunExit.exc e)
     | Except.ok _ => Except.error (RunExit.exit 1), k)
  | r + 1 =>
    match pyIntOpt (respValue (polls k)) with
    | Except.error e => (Except.error (RunExit.exc e), k)
    | Except.ok v =>
      if v ≠ 0 then (Except.ok (), k)
      else crGo polls (k + 1) r

/-- Model of `check_display_readiness`: polls `max_contrast` until a non-zero
value; `checks` starts at 0 and the run exits once `checks > 10`. -/
def checkDisplayReadiness (polls : Nat → Resp) : Except RunExit Unit × Nat :=
  crGo polls 1 10

/-- Model of `set_display_contrast`: `set_contrast` on every display in order;
an exception from `set_contrast` aborts the loop and propagates. -/
def setDisplayContrast (env : Env) : List Display → Int → Except PyErr Unit × Trace
  | [], _ => (Except.ok (), [])
  | d :: rest, v =>
    let s := setContrast env d.id v
    match s.1 with
    | Except.error e => (Except.error e, s.2)
    | Except.ok _ =>
      let r := setDisplayContrast env rest v
      (r.1, s.2 ++ r.2)

/-- Model of `displays[0]["id"]`; in `main` the list is nonempty when this is
evaluated, so the `[]` case is dead. -/
def firstDisplayId : List Display → List Char
  | [] => []
  | d :: _ => d.id

/-- Model of `main` after argument parsing: enumerate displays (exit 1 when none),
resolve the machine profile (exit 1 for `swap`), set every display's
input, poll readiness on the first display (the polls are taken from
`polls`, indexed by poll number, and each appears in the trace as a
`max contrast` command), then set every display's contrast.  Uncaught
Python exceptions terminate the run as `RunExit.exc`. -/
def mainModel (env : Env) (polls : Nat → Resp) (t : Target) :
    Except RunExit Unit × Trace :=
  let ld := listDisplays env
  let displays := ld.1
  if displays.length < 1 then (Except.error (RunExit.exit 1), ld.2)
  else
    match determineDisplaySettings t with
    | Except.error e => (Except.error e, ld.2)
    | Except.ok conf =>
      let t2 := setDisplayInput env displays conf.input
      let cr := checkDisplayReadiness polls
      let pollTrace := List.replicate cr.2 (maxArgs (firstDisplayId displays) cCONTRAST)
      match cr.1 with
      | Except.error e => (Except.error e, ld.2 ++ t2 ++ pollTrace)
      | Except.ok _ =>
        let sc := setDisplayContrast env displays conf.contrast
        match sc.1 with
        | Except.error e => (Except.error (RunExit.exc e), ld.2 ++ t2 ++ pollTrace ++ sc.2)
        | Except.ok _ => (Except.ok (), ld.2 ++ t2 ++ pollTrace ++ sc.2)

/-- The `CommandError` of the specification: exit status and captured
error stream of a failed utility invocation. -/
structure CommandError where
  status : Nat
  errorStream : List Char
  deriving DecidableEq, Repr

/-- The command runner as the specification words it (for comparison
with `runCommand`, which the source defines): standard output with
trailing whitespace trimmed on success, and on non-zero exit a
`CommandError` carrying the exit status and the error stream. -/
def runCommandSpec (env : Env) (args : Args) : Except CommandError (List Char) :=
  let r := env args
  if r.exitCode = 0 then Except.ok (dropTrailing pyWs r.stdout)
  else Except.error ⟨r.exitCode, r.stderr⟩

/-- The canonical text of a display-list line for number `n`, name
`nm` and identifier `idc`: `[<n>] <nm> (<idc>)`. -/
def mkLine (n : Nat) (nm idc : List Char) : List Char :=
  '[' :: (natRepr n ++ (']' :: (' ' :: (nm ++ (' ' :: ('(' :: (idc ++ [')'])))))))

/-- Decidable equality for `Except` results (both components
decidable). -/
instance {ε α : Type} [DecidableEq ε] [DecidableEq α] : DecidableEq (Except ε α) :=
  fun a b =>
    match a, b with
    | Except.ok x, Except.ok y =>
      if h : x = y then isTrue (congrArg Except.ok h)
      else isFalse (fun hh => h (Except.ok.inj hh))
    | Except.error x, Except.error y =>
      if h : x = y then isTrue (congrArg Except.error h)
      else isFalse (fun hh => h (Except.error.inj hh))
    | Except.ok _, Except.error _ => isFalse (fun hh => Except.noConfusion hh)
    | Except.error _, Except.ok _ => isFalse (fun hh => Except.noConfusion hh)

/-- Utility behaviour for the C2 evaluation: current luminance `50`,
maximum luminance `100`, empty output elsewhere. -/
def c2Env : Env := fun args =>
  if args = maxArgs ['1'] cLUMINANCE then ⟨0, "100".toList, []⟩
  else if args = getArgs ['1'] cLUMINANCE then ⟨0, "50".toList, []⟩
  else ⟨0, [], []⟩

/-- Readiness responses: `0` on the first ten polls, `52` from the
eleventh on. -/
def c3Polls : Nat → Resp :=
  fun k => ⟨0, (if k ≤ 10 then "0" else "52").toList, []⟩

/-- Readiness responses: `0` except `52` on the third poll. -/
def w3Polls : Nat → Resp :=
  fun k => ⟨0, (if k = 3 then "52" else "0").toList, []⟩

/-- Parsed poll values matching `w3Polls`. -/
def w3Vals : Nat → Int := fun k => if k = 3 then 52 else 0

/-- Readiness responses that are always `0`. -/
def wZeroPolls : Nat → Resp := fun _ => ⟨0, "0".toList, []⟩

/-- Utility behaviour listing one display. -/
def w1Env : Env := fun args =>
  if args = listArgs then ⟨0, "[1] Dell (D-1)".toList, []⟩ else ⟨0, [], []⟩

/-- A failing utility invocation with exit status 2. -/
def c4EnvA : Env := fun _ => ⟨2, [], "boom-a".toList⟩

/-- A failing utility invocation with exit status 3. -/
def c4EnvB : Env := fun _ => ⟨3, [], "boom-b".toList⟩

/-- Utility behaviour answering `100` to every query. -/
def w5Env : Env := fun _ => ⟨0, "100".toList, []⟩

/-- Utility behaviour answering `52` to every query. -/
def w7Env : Env := fun _ => ⟨0, "52".toList, []⟩

/-- Utility behaviour answering with empty output. -/
def wEmptyEnv : Env := fun _ => ⟨0, [], []⟩

/-- Utility behaviour failing every invocation with exit status 1. -/
def wFailEnv : Env := fun _ => ⟨1, [], "err".toList⟩

/-- A `takeWhile` stops exactly at the first failing element. -/
theorem takeWhile_append_cons {p : Char → Bool} {xs ys : List Char} {y : Char}
    (hxs : ∀ c ∈ xs, p c = true) (hy : p y = false) :
    (xs ++ y :: ys).takeWhile p = xs := by
  induction xs with
  | nil => simp [List.takeWhile_cons, hy]
  | cons a l ih =>
    have ha : p a = true := hxs a (by simp)
    simp only [List.cons_append, List.takeWhile_cons, ha, if_true]
    rw [ih (fun c hc => hxs c (by simp [hc]))]

/-- A `dropWhile` drops exactly up to the first failing element. -/
theorem dropWhile_append_cons {p : Char → Bool} {xs ys : List Char} {y : Char}
    (hxs : ∀ c ∈ xs, p c = true) (hy : p y = false) :
    (xs ++ y :: ys).dropWhile p = y :: ys := by
  induction xs with
  | nil => simp [List.dropWhile_cons, hy]
  | cons a l ih =>
    have ha : p a = true := hxs a (by simp)
    simp only [List.cons_append, List.dropWhile_cons, ha, if_true]
    exact ih (fun c hc => hxs c (by simp [hc]))

/-- A list whose first and last characters (when present) are not
whitespace is unchanged by `pyStrip`. -/
theorem pyStrip_eq_self {l : List Char}
    (h1 : ∀ c ∈ l.take 1, pyWs c = false)
    (h2 : ∀ c ∈ l.reverse.take 1, pyWs c = false) :
    pyStrip l = l := by
  cases hl : l with
  | nil => rfl
  | cons a t =>
    have ha : pyWs a = false := h1 a (by simp [hl])
    have hdrop : l.dropWhile pyWs = l := by
      rw [hl, List.dropWhile_cons, ha]; simp
    cases hr : l.reverse with
    | nil => simp [hl] at hr
    | cons b r =>
      have hb : pyWs b = false := h2 b (by simp [hr])
      rw [pyStrip, hl] at *
      rw [hdrop]
      unfold dropTrailing
      rw [hr, List.dropWhile_cons, hb]
      simp only [if_false, Bool.false_eq_true]
      rw [← hr, List.reverse_reverse]

/-- Digit characters are produced by `digitChar` on digits. -/
theorem isDig_digitChar {d : Nat} (h : d < 10) : isDig (digitChar d) = true := by
  interval_cases d <;> decide

/-- The map `digitVal` inverts `digitChar` on digits. -/
theorem digitVal_digitChar {d : Nat} (h : d < 10) : digitVal (digitChar d) = d := by
  interval_cases d <;> decide

/-- Every character of `natReprGo` output is a digit. -/
theorem natReprGo_digits : ∀ (f n : Nat), ∀ c ∈ natReprGo f n, isDig c = true := by
  intro f
  induction f with
  | zero => intro n c hc; simp [natReprGo] at hc
  | succ f ih =>
    intro n c hc
    by_cases h : n < 10
    · simp [natReprGo, h] at hc
      rw [hc]; exact isDig_digitChar h
    · simp only [natReprGo, h, if_false] at hc
      rcases List.mem_append.1 hc with h1 | h2
      · exact ih (n / 10) c h1
      · simp at h2
        rw [h2]; exact isDig_digitChar (Nat.mod_lt n (by omega))

/-- The output of `natReprGo` is nonempty when fuel is positive. -/
theorem natReprGo_ne_nil {f n : Nat} (h : 0 < f) : natReprGo f n ≠ [] := by
  cases f with
  | zero => omega
  | succ f =>
    by_cases hn : n < 10 <;> simp [natReprGo, hn]

/-- Appending one digit multiplies the accumulated value by ten. -/
theorem digitsToNat_append_last (xs : List Char) (c : Char) :
    digitsToNat (xs ++ [c]) = 10 * digitsToNat xs + digitVal c := by
  simp [digitsToNat, List.foldl_append]

/-- The fold `digitsToNat` inverts `natReprGo` when the fuel is enough. -/
theorem digitsToNat_natReprGo : ∀ (f n : Nat), n < 10 ^ f →
    digitsToNat (natReprGo f n) = n := by
  intro f
  induction f with
  | zero => intro n h; simp at h; simp [h, natReprGo, digitsToNat]
  | succ f ih =>
    intro n h
    by_cases hn : n < 10
    · simp [natReprGo, hn, digitsToNat, digitVal_digitChar hn]
    · simp only [natReprGo, hn, if_false]
      rw [digitsToNat_append_last,
        ih (n / 10) (by
          rw [Nat.div_lt_iff_lt_mul (by omega)]
          calc n < 10 ^ (f + 1) := h
          _ = 10 ^ f * 10 := by ring),
        digitVal_digitChar (Nat.mod_lt n (by omega))]
      omega

/-- The fold `digitsToNat` inverts `natRepr`. -/
theorem digitsToNat_natRepr (n : Nat) : digitsToNat (natRepr n) = n :=
  digitsToNat_natReprGo (n + 1) n
    (lt_of_lt_of_le (Nat.lt_pow_self (by norm_num) n)
      (Nat.pow_le_pow_right (by norm_num) (by omega)))

/-- Every character of `natRepr` output is a digit. -/
theorem natRepr_digits (n : Nat) : ∀ c ∈ natRepr n, isDig c = true :=
  natReprGo_digits (n + 1) n

/-- The output of `natRepr` is nonempty. -/
theorem natRepr_ne_nil (n : Nat) : natRepr n ≠ [] :=
  natReprGo_ne_nil (by omega)

/-- C10: `get_brightness` and `set_brightness` are exact aliases of
`get_luminance` and `set_luminance`: same result and same issued
commands for every environment, display id and value. -/
theorem brightness_is_luminance_alias :
    ∀ (env : Env) (d : List Char) (v : Int),
      getBrightness env d = getLuminance env d ∧
      setBrightness env d v = setLuminance env d v := by
  intro env d v
  exact ⟨rfl, rfl⟩

/-- The value read back for a bounded property is a string or `None`,
so adding it to the integer delta raises; `change_luminance` therefore
never reaches its relative command. -/
theorem changeLuminance_raises (env : Env) (d : List Char) (v : Int) :
    ∃ e, changeLuminance env d v =
      (Except.error e, [getArgs d cLUMINANCE, maxArgs d cLUMINANCE]) := by
  unfold changeLuminance getLuminance maxLuminance m1get m1getMax runCommand
  rcases h : pyIntOpt (runValue env (maxArgs d cLUMINANCE)) with e | m
  · exact ⟨e, by simp [h]⟩
  · rcases hc : runValue env (getArgs d cLUMINANCE) with _ | s
    · exact ⟨PyErr.typeError, by simp [h, hc, pyOfOpt, pyAdd]⟩
    · exact ⟨PyErr.typeError, by simp [h, hc, pyOfOpt, pyAdd]⟩

/-- Companion of `changeLuminance_raises` for `change_contrast`. -/
theorem changeContrast_raises (env : Env) (d : List Char) (v : Int) :
    ∃ e, changeContrast env d v =
      (Except.error e, [getArgs d cCONTRAST, maxArgs d cCONTRAST]) := by
  unfold changeContrast getContrast maxContrast m1get m1getMax runCommand
  rcases h : pyIntOpt (runValue env (maxArgs d cCONTRAST)) with e | m
  · exact ⟨e, by simp [h]⟩
  · rcases hc : runValue env (getArgs d cCONTRAST) with _ | s
    · exact ⟨PyErr.typeError, by simp [h, hc, pyOfOpt, pyAdd]⟩
    · exact ⟨PyErr.typeError, by simp [h, hc, pyOfOpt, pyAdd]⟩

/-- Companion of `changeLuminance_raises` for `change_volume`. -/
theorem changeVolume_raises (env : Env) (d : List Char) (v : Int) :
    ∃ e, changeVolume env d v =
      (Except.error e, [getArgs d cVOLUME, maxArgs d cVOLUME]) := by
  unfold changeVolume getVolume maxVolume m1get m1getMax runCommand
  rcases h : pyIntOpt (runValue env (maxArgs d cVOLUME)) with e | m
  · exact ⟨e, by simp [h]⟩
  · rcases hc : runValue env (getArgs d cVOLUME) with _ | s
    · exact ⟨PyErr.typeError, by simp [h, hc, pyOfOpt, pyAdd]⟩
    · exact ⟨PyErr.typeError, by simp [h, hc, pyOfOpt, pyAdd]⟩

/-- C2: the relative change operations never behave as specified: for
every environment, display and delta they terminate in an uncaught
exception (the `int + str` / `int + None` addition of the delta and
the textual current value raises `TypeError`, which the handler for
`ValueError` does not catch), and never issue the `chg` command; in
particular with current luminance `50`, maximum `100` and delta `5`
— where the claim demands a `chg` command — the call raises
`TypeError` after only the two read commands. -/
theorem change_ops_raise_instead_of_soft_fail :
    (∀ (env : Env) (d : List Char) (v : Int), ∃ e, changeLuminance env d v =
      (Except.error e, [getArgs d cLUMINANCE, maxArgs d cLUMINANCE])) ∧
    (∀ (env : Env) (d : List Char) (v : Int), ∃ e, changeContrast env d v =
      (Except.error e, [getArgs d cCONTRAST, maxArgs d cCONTRAST])) ∧
    (∀ (env : Env) (d : List Char) (v : Int), ∃ e, changeVolume env d v =
      (Except.error e, [getArgs d cVOLUME, maxArgs d cVOLUME])) ∧
    changeLuminance c2Env ['1'] 5 =
      (Except.error PyErr.typeError,
        [getArgs ['1'] cLUMINANCE, maxArgs ['1'] cLUMINANCE]) := by
  refine ⟨changeLuminance_raises, changeContrast_raises, changeVolume_raises, ?_⟩
  decide

/-- C5: for each bounded property, the absolute set first queries the
maximum; when the value is outside `[0, max]` it raises the
out-of-range `ValueError` (propagated, the trace showing that the
mutating command was never issued), and otherwise issues exactly the
`set` command. -/
theorem set_ops_bound_checked :
    ∀ (env : Env) (d : List Char) (v : Int),
      (∀ m, pyIntOpt (runValue env (maxArgs d cLUMINANCE)) = Except.ok m →
        ((v < 0 ∨ v > m) →
          setLuminance env d v = (Except.error PyErr.valueError, [maxArgs d cLUMINANCE])) ∧
        (0 ≤ v → v ≤ m →
          setLuminance env d v =
            (Except.ok (runValue env (setArgs d cLUMINANCE (intRepr v))),
             [maxArgs d cLUMINANCE, setArgs d cLUMINANCE (intRepr v)]))) ∧
      (∀ m, pyIntOpt (runValue env (maxArgs d cCONTRAST)) = Except.ok m →
        ((v < 0 ∨ v > m) →
          setContrast env d v = (Except.error PyErr.valueError, [maxArgs d cCONTRAST])) ∧
        (0 ≤ v → v ≤ m →
          setContrast env d v =
            (Except.ok (runValue env (setArgs d cCONTRAST (intRepr v))),
             [maxArgs d cCONTRAST, setArgs d cCONTRAST (intRepr v)]))) ∧
      (∀ m, pyIntOpt (runValue env (maxArgs d cVOLUME)) = Except.ok m →
        ((v < 0 ∨ v > m) →
          setVolume env d v = (Except.error PyErr.valueError, [maxArgs d cVOLUME])) ∧
        (0 ≤ v → v ≤ m →
          setVolume env d v =
            (Except.ok (runValue env (setArgs d cVOLUME (intRepr v))),
             [maxArgs d cVOLUME, setArgs d cVOLUME (intRepr v)]))) := by
  intro env d v
  refine ⟨?_, ?_, ?_⟩ <;>
    · intro m hm
      constructor
      · intro hout
        simp only [setLuminance, setContrast, setVolume, maxLuminance,
          maxContrast, maxVolume, m1getMax]
        simp [hm, hout]
      · intro h0 h1
        have hin : ¬(v < 0 ∨ v > m) := by omega
        simp only [setLuminance, setContrast, setVolume, maxLuminance,
          maxContrast, maxVolume, m1getMax, m1set, runCommand]
        simp [hm, hin]

/-- Witness for C5 at concrete inputs: maximum 100, value 150 rejected
before any mutation, value 50 accepted and set. -/
theorem set_ops_bound_checked_witness :
    setLuminance w5Env ['7'] 150 =
      (Except.error PyErr.valueError, [maxArgs ['7'] cLUMINANCE]) ∧
    setContrast w5Env ['7'] (-1) =
      (Except.error PyErr.valueError, [maxArgs ['7'] cCONTRAST]) ∧
    setVolume w5Env ['7'] 50 =
      (Except.ok (Option.some "100".toList),
       [maxArgs ['7'] cVOLUME, setArgs ['7'] cVOLUME (intRepr 50)]) := by
  refine ⟨?_, ?_, ?_⟩
  · exact ((set_ops_bound_checked w5Env ['7'] 150).1 100 rfl).1 (by norm_num)
  · exact ((set_ops_bound_checked w5Env ['7'] (-1)).2.1 100 rfl).1 (by norm_num)
  · exact ((set_ops_bound_checked w5Env ['7'] 50).2.2 100 rfl).2 (by norm_num) (by norm_num)

/-- C7: for each bounded property, the maximum query returns the
utility's report parsed as an integer when it parses, raises
`TypeError` when the command failed (the report is `None`), and raises
`ValueError` when the report is empty — never a default value. -/
theorem get_max_parses_or_raises :
    ∀ (env : Env) (d : List Char),
      ((∀ n : Int, (env (maxArgs d cLUMINANCE)).exitCode = 0 →
          pyIntParse (pyStrip (env (maxArgs d cLUMINANCE)).stdout) = Except.ok n →
          maxLuminance env d = (Except.ok n, [maxArgs d cLUMINANCE])) ∧
        ((env (maxArgs d cLUMINANCE)).exitCode ≠ 0 →
          maxLuminance env d = (Except.error PyErr.typeError, [maxArgs d cLUMINANCE])) ∧
        ((env (maxArgs d cLUMINANCE)).exitCode = 0 →
          pyStrip (env (maxArgs d cLUMINANCE)).stdout = [] →
          maxLuminance env d = (Except.error PyErr.valueError, [maxArgs d cLUMINANCE]))) ∧
      ((∀ n : Int, (env (maxArgs d cCONTRAST)).exitCode = 0 →
          pyIntParse (pyStrip (env (maxArgs d cCONTRAST)).stdout) = Except.ok n →
          maxContrast env d = (Except.ok n, [maxArgs d cCONTRAST])) ∧
        ((env (maxArgs d cCONTRAST)).exitCode ≠ 0 →
          maxContrast env d = (Except.error PyErr.typeError, [maxArgs d cCONTRAST])) ∧
        ((env (maxArgs d cCONTRAST)).exitCode = 0 →
          pyStrip (env (maxArgs d cCONTRAST)).stdout = [] →
          maxContrast env d = (Except.error PyErr.valueError, [maxArgs d cCONTRAST]))) ∧
      ((∀ n : Int, (env (maxArgs d cVOLUME)).exitCode = 0 →
          pyIntParse (pyStrip (env (maxArgs d cVOLUME)).stdout) = Except.ok n →
          maxVolume env d = (Except.ok n, [maxArgs d cVOLUME])) ∧
        ((env (maxArgs d cVOLUME)).exitCode ≠ 0 →
          maxVolume env d = (Except.error PyErr.typeError, [maxArgs d cVOLUME])) ∧
        ((env (maxArgs d cVOLUME)).exitCode = 0 →
          pyStrip (env (maxArgs d cVOLUME)).stdout = [] →
          maxVolume env d = (Except.error PyErr.valueError, [maxArgs d cVOLUME]))) := by
  intro env d
  refine ⟨?_, ?_, ?_⟩ <;>
    · refine ⟨?_, ?_, ?_⟩
      · intro n h0 hp
        simp only [maxLuminance, maxContrast, maxVolume, m1getMax, runValue,
          respValue, h0, if_pos, pyIntOpt]
        simp [hp]
      · intro h0
        simp only [maxLuminance, maxContrast, maxVolume, m1getMax, runValue,
          respValue, if_neg h0, pyIntOpt]
      · intro h0 hp
        simp only [maxLuminance, maxContrast, maxVolume, m1getMax, runValue,
          respValue, h0, if_pos, pyIntOpt]
        simp [hp]
        rfl

/-- Witness for C7 at concrete inputs: report `52` parsed, failed
command raising `TypeError`, empty report raising `ValueError`. -/
theorem get_max_parses_or_raises_witness :
    maxLuminance w7Env ['1'] = (Except.ok 52, [maxArgs ['1'] cLUMINANCE]) ∧
    maxContrast wFailEnv ['1'] =
      (Except.error PyErr.typeError, [maxArgs ['1'] cCONTRAST]) ∧
    maxVolume wEmptyEnv ['1'] =
      (Except.error PyErr.valueError, [maxArgs ['1'] cVOLUME]) :=
  ⟨(get_max_parses_or_raises w7Env ['1']).1.1 52 rfl rfl,
   (get_max_parses_or_raises wFailEnv ['1']).2.1.2.1 (by decide),
   (get_max_parses_or_raises wEmptyEnv ['1']).2.2.2.2 rfl rfl⟩

/-- C9: a failed `display list` command and an empty listing output
both yield the empty display list at the public interface, with no
failure propagated. -/
theorem list_displays_failure_indistinguishable :
    ∀ env : Env,
      ((env listArgs).exitCode ≠ 0 → listDisplays env = ([], [listArgs])) ∧
      ((env listArgs).exitCode = 0 → pyStrip (env listArgs).stdout = [] →
        listDisplays env = ([], [listArgs])) := by
  intro env
  constructor
  · intro h0
    simp [listDisplays, runCommand, runValue, respValue, if_neg h0]
  · intro h0 hs
    simp [listDisplays, runCommand, runValue, respValue, h0, hs]

/-- Witness for C9 at concrete inputs: exit status 1 and empty output
both produce the empty display list. -/
theorem list_displays_failure_indistinguishable_witness :
    listDisplays wFailEnv = ([], [listArgs]) ∧
    listDisplays wEmptyEnv = ([], [listArgs]) :=
  ⟨(list_displays_failure_indistinguishable wFailEnv).1 (by decide),
   (list_displays_failure_indistinguishable wEmptyEnv).2 rfl rfl⟩

/-- C4 counterexample: two failing invocations with different exit
statuses and different error streams produce the very same runner
result, so the value returned to the caller carries neither the exit
status nor the error stream that the claim requires; the spec-shaped
runner distinguishes them. -/
theorem run_command_counterexample :
    runCommand c4EnvA listArgs = runCommand c4EnvB listArgs ∧
    (c4EnvA listArgs).exitCode = 2 ∧
    (c4EnvB listArgs).exitCode = 3 ∧
    (c4EnvA listArgs).stderr ≠ (c4EnvB listArgs).stderr ∧
    runCommandSpec c4EnvA listArgs ≠ runCommandSpec c4EnvB listArgs := by
  refine ⟨rfl, rfl, rfl, by decide, by decide⟩

/-- C4 amended: the runner captures standard output stripped of leading
and trailing whitespace on success; on non-zero exit it never raises
but returns the bare `None`, a value independent of the exit status
and error stream. -/
theorem run_command_returns_bare_none :
    ∀ (env : Env) (args : Args),
      ((env args).exitCode = 0 →
        runCommand env args = (Option.some (pyStrip (env args).stdout), [args])) ∧
      ((env args).exitCode ≠ 0 →
        runCommand env args = (Option.none, [args]) ∧
        ∀ env2 : Env, (env2 args).exitCode ≠ 0 →
          (runCommand env args).1 = (runCommand env2 args).1) := by
  intro env args
  constructor
  · intro h0
    simp [runCommand, runValue, respValue, h0]
  · intro h0
    constructor
    · simp [runCommand, runValue, respValue, if_neg h0]
    · intro env2 h2
      simp [runCommand, runValue, respValue, if_neg h0, if_neg h2]

/-- Witness for the amended C4 at concrete inputs. -/
theorem run_command_returns_bare_none_witness :
    runCommand w7Env listArgs = (Option.some "52".toList, [listArgs]) ∧
    runCommand c4EnvA listArgs = (Option.none, [listArgs]) :=
  ⟨(run_command_returns_bare_none w7Env listArgs).1 rfl,
   ((run_command_returns_bare_none c4EnvA listArgs).2 (by decide)).1⟩

/-- C8: when the display registry yields zero displays the run exits
immediately with status 1, the only subprocess invocation being the
`display list` command — no get, set, max or chg command is issued. -/
theorem zero_displays_exits_without_property_ops :
    ∀ (env : Env) (polls : Nat → Resp) (t : Target),
      (listDisplays env).1 = [] →
      mainModel env polls t = (Except.error (RunExit.exit 1), [listArgs]) := by
  intro env polls t h
  have htr : (listDisplays env).2 = [listArgs] := rfl
  simp [mainModel, h, htr]

/-- Witness for C8 at a concrete input: a failing list command. -/
theorem zero_displays_exits_without_property_ops_witness :
    mainModel wFailEnv wZeroPolls Target.work =
      (Except.error (RunExit.exit 1), [listArgs]) :=
  zero_displays_exits_without_property_ops wFailEnv wZeroPolls Target.work rfl

/-- When the first non-zero poll value arrives at position `K ≤ 10`,
the readiness loop stops there with success. -/
theorem crGo_proceeds (polls : Nat → Resp) (vals : Nat → Int)
    (hp : ∀ j, 1 ≤ j → j ≤ 11 → pyIntOpt (respValue (polls j)) = Except.ok (vals j)) :
    ∀ (r k K : Nat), k + r = 11 → 1 ≤ k → k ≤ K → K ≤ 10 →
      (∀ j, k ≤ j → j < K → vals j = 0) → vals K ≠ 0 →
      crGo polls k r = (Except.ok (), K) := by
  intro r
  induction r with
  | zero => intro k K hkr hk1 hkK hK10 _ _; omega
  | succ r ih =>
    intro k K hkr hk1 hkK hK10 hzero hval
    have hk11 : k ≤ 11 := by omega
    have hpk := hp k hk1 hk11
    by_cases hkeq : k = K
    · subst hkeq
      simp [crGo, hpk, hval]
    · have hklt : k < K := by omega
      have hz : vals k = 0 := hzero k (by omega) hklt
      simp only [crGo, hpk, hz]
      simp only [ne_eq, not_true_eq_false, if_false, ite_not, if_pos]
      exact ih (k + 1) K (by omega) (by omega) (by omega) hK10
        (fun j hj1 hj2 => hzero j (by omega) hj2) hval

/-- When the first ten polls are zero, the eleventh poll happens and
the loop exits with status 1 regardless of the value it returns. -/
theorem crGo_timeout (polls : Nat → Resp) (vals : Nat → Int)
    (hp : ∀ j, 1 ≤ j → j ≤ 11 → pyIntOpt (respValue (polls j)) = Except.ok (vals j)) :
    ∀ (r k : Nat), k + r = 11 → 1 ≤ k →
      (∀ j, 1 ≤ j → j ≤ 10 → vals j = 0) →
      crGo polls k r = (Except.error (RunExit.exit 1), 11) := by
  intro r
  induction r with
  | zero =>
    intro k hkr hk1 _
    have hk : k = 11 := by omega
    subst hk
    simp [crGo, hp 11 (by omega) (by omega)]
  | succ r ih =>
    intro k hkr hk1 hzero
    have hz : vals k = 0 := hzero k hk1 (by omega)
    simp only [crGo, hp k hk1 (by omega), hz]
    simp only [ne_eq, not_true_eq_false, if_false, ite_not, if_pos]
    exact ih (k + 1) (by omega) (by omega) hzero

/-- C3 (corrected): with poll `j` parsing to `vals j`, the controller
proceeds after the first non-zero poll only when that poll is among
the first ten; if the first ten polls are all zero it performs an
eleventh poll and exits with status 1 regardless of that poll's value,
and in a full run reaching the poll in that state the trace ends with
the eleven `max contrast` polls — no further mutation is issued. -/
theorem readiness_poll_behaviour (polls : Nat → Resp) (vals : Nat → Int)
    (hp : ∀ j, 1 ≤ j → j ≤ 11 → pyIntOpt (respValue (polls j)) = Except.ok (vals j)) :
    (∀ K, 1 ≤ K → K ≤ 10 → (∀ j, 1 ≤ j → j < K → vals j = 0) → vals K ≠ 0 →
      checkDisplayReadiness polls = (Except.ok (), K)) ∧
    ((∀ j, 1 ≤ j → j ≤ 10 → vals j = 0) →
      checkDisplayReadiness polls = (Except.error (RunExit.exit 1), 11)) ∧
    (∀ (env : Env) (t : Target) (conf : MachineConf),
      (∀ j, 1 ≤ j → j ≤ 10 → vals j = 0) →
      (listDisplays env).1 ≠ [] →
      determineDisplaySettings t = Except.ok conf →
      mainModel env polls t = (Except.error (RunExit.exit 1),
        [listArgs] ++ setDisplayInput env (listDisplays env).1 conf.input ++
          List.replicate 11 (maxArgs (firstDisplayId (listDisplays env).1) cCONTRAST))) := by
  refine ⟨?_, ?_, ?_⟩
  · intro K h1 h10 hzero hval
    exact crGo_proceeds polls vals hp 10 1 K (by omega) (by omega) h1 h10
      (fun j hj1 hj2 => hzero j hj1 hj2) hval
  · intro hzero
    exact crGo_timeout polls vals hp 10 1 (by omega) (by omega) hzero
  · intro env t conf hzero hne hconf
    have hcr : checkDisplayReadiness polls = (Except.error (RunExit.exit 1), 11) :=
      crGo_timeout polls vals hp 10 1 (by omega) (by omega) hzero
    have hlen : ¬((listDisplays env).1.length < 1) := by
      rcases h : (listDisplays env).1 with _ | ⟨a, l⟩
      · exact absurd h hne
      · simp [h]
    have htr : (listDisplays env).2 = [listArgs] := rfl
    simp [mainModel, hlen, hconf, hcr, htr]

/-- C3 counterexample: ten zero responses followed by `52` on the
eleventh poll.  The claim says the controller proceeds immediately
after the first poll returning the non-zero value; the code instead
exits with status 1 after that eleventh poll. -/
theorem readiness_poll_counterexample :
    pyIntOpt (respValue (c3Polls 1)) = Except.ok 0 ∧
    pyIntOpt (respValue (c3Polls 10)) = Except.ok 0 ∧
    pyIntOpt (respValue (c3Polls 11)) = Except.ok 52 ∧
    checkDisplayReadiness c3Polls = (Except.error (RunExit.exit 1), 11) ∧
    checkDisplayReadiness c3Polls ≠ (Except.ok (), 11) := by
  refine ⟨rfl, rfl, rfl, by decide, by decide⟩

/-- Witness for the corrected C3: a non-zero value on the third poll
makes the run proceed after exactly three polls, and all-zero
responses in a full run with one display end in exit status 1 after
eleven polls with no contrast command. -/
theorem readiness_poll_behaviour_witness :
    checkDisplayReadiness w3Polls = (Except.ok (), 3) ∧
    mainModel w1Env wZeroPolls Target.work = (Except.error (RunExit.exit 1),
      [listArgs] ++ setDisplayInput w1Env (listDisplays w1Env).1 17 ++
        List.replicate 11 (maxArgs (firstDisplayId (listDisplays w1Env).1) cCONTRAST)) := by
  constructor
  · exact (readiness_poll_behaviour w3Polls w3Vals
      (by intro j h1 h2; interval_cases j <;> rfl)).1 3 (by omega) (by omega)
      (by intro j h1 h2; interval_cases j <;> rfl) (by decide)
  · exact (readiness_poll_behaviour wZeroPolls (fun _ => 0)
      (by intro j h1 h2; rfl)).2.2 w1Env Target.work ⟨17, 75⟩
      (by intro j h1 h2; rfl) (by decide) rfl

/-- C1: under the `swap` target the controller never reads or toggles
any display input: `main` routes `swap` through the profile table,
which has no such entry, and exits with status 1 right after the
`display list` command; the unreachable `swap_targets` helper itself
discards the `get_input` result and fails with `KeyError` on its first
display, because the parsed records have no `input` key. -/
theorem swap_mode_never_toggles :
    (∀ (env : Env) (polls : Nat → Resp), (listDisplays env).1 ≠ [] →
      mainModel env polls Target.swap = (Except.error (RunExit.exit 1), [listArgs])) ∧
    (∀ (env : Env) (d : Display) (rest : List Display),
      swapTargets env (d :: rest) =
        (Except.error (RunExit.exc PyErr.keyError), [getArgs d.id cINPUT])) := by
  constructor
  · intro env polls hne
    have hlen : ¬((listDisplays env).1.length < 1) := by
      rcases h : (listDisplays env).1 with _ | ⟨a, l⟩
      · exact absurd h hne
      · simp [h]
    have htr : (listDisplays env).2 = [listArgs] := rfl
    simp [mainModel, hlen, htr, determineDisplaySettings, machineConfs]
  · intro env d rest
    have hkey : displayLookup d cINPUT = Option.none := by
      simp only [displayLookup]
      rw [if_neg (by decide), if_neg (by decide), if_neg (by decide)]
    simp [swapTargets, hkey, getInput, m1get, runCommand]

/-- Witness for C1 at a concrete input: one listed display, target
`swap`. -/
theorem swap_mode_never_toggles_witness :
    mainModel w1Env wZeroPolls Target.swap =
      (Except.error (RunExit.exit 1), [listArgs]) :=
  swap_mode_never_toggles.1 w1Env wZeroPolls (by decide)

/-- The name group of the regex on a canonically spaced middle region:
a nonempty name with non-whitespace first and last characters and no
newline is captured verbatim. -/
theorem nameOf_mk (nm : List Char) (hnm : nm ≠ [])
    (hh : ∀ c ∈ nm.take 1, pyWs c = false)
    (hl : ∀ c ∈ nm.reverse.take 1, pyWs c = false)
    (hnl : ∀ c ∈ nm, c.toNat ≠ 10) :
    nameOf (' ' :: (nm ++ [' '])) = Option.some nm := by
  have hsp : pyWs ' ' = true := rfl
  have hdrop1 : (nm ++ [' ']).dropWhile pyWs = nm ++ [' '] := by
    cases nm with
    | nil => exact absurd rfl hnm
    | cons a l =>
      have ha : pyWs a = false := hh a (by simp)
      simp [List.dropWhile_cons, ha]
  have hdrop2 : nm.reverse.dropWhile pyWs = nm.reverse := by
    cases hr : nm.reverse with
    | nil => simp
    | cons b r =>
      have hb : pyWs b = false := hl b (by simp [hr])
      simp [List.dropWhile_cons, hb]
  have hany : nm.any (fun c => c.toNat == 10) = false := by
    rw [List.any_eq_false]
    intro x hx
    simp [hnl x hx]
  have hBne : nm ++ [' '] ≠ [] := by simp
  simp only [nameOf, List.dropWhile_cons, List.takeWhile_cons, hsp, if_true,
    List.reverse_append, List.reverse_cons, List.reverse_nil, List.nil_append,
    List.cons_append, hdrop1, hdrop2]
  simp [hdrop1, hdrop2, hany, hBne, List.isEmpty_eq_false]

/-- The tail matcher on a canonically spaced tail region captures the
name and id groups verbatim. -/
theorem matchTail_mk (nm idc : List Char) (hnm : nm ≠ [])
    (hh : ∀ c ∈ nm.take 1, pyWs c = false)
    (hl : ∀ c ∈ nm.reverse.take 1, pyWs c = false)
    (hnl : ∀ c ∈ nm, c.toNat ≠ 10)
    (hid : idc ≠ []) (hidw : ∀ c ∈ idc, wordHy c = true) :
    matchTail (' ' :: (nm ++ (' ' :: ('(' :: (idc ++ [')']))))) =
      Option.some (nm, idc) := by
  have hrev : (' ' :: (nm ++ (' ' :: ('(' :: (idc ++ [')']))))).reverse
      = ')' :: (idc.reverse ++ ('(' :: (' ' :: (nm.reverse ++ [' '])))) := by
    simp
  have htake : (idc.reverse ++ ('(' :: (' ' :: (nm.reverse ++ [' '])))).takeWhile wordHy
      = idc.reverse :=
    takeWhile_append_cons (fun c hc => hidw c (List.mem_reverse.1 hc)) (by decide)
  have hdrop : (idc.reverse ++ ('(' :: (' ' :: (nm.reverse ++ [' '])))).dropWhile wordHy
      = '(' :: (' ' :: (nm.reverse ++ [' '])) :=
    dropWhile_append_cons (fun c hc => hidw c (List.mem_reverse.1 hc)) (by decide)
  have hne : idc.reverse.isEmpty = false := by
    rw [List.isEmpty_eq_false, ne_eq, List.reverse_eq_nil_iff]
    exact hid
  have hrest2 : (' ' :: (nm.reverse ++ [' '])).reverse = ' ' :: (nm ++ [' ']) := by
    simp
  rw [matchTail, hrev]
  simp only [matchTailRev, matchTailAfterParen, htake, hdrop, hne,
    Bool.false_eq_true, if_false, hrest2, nameOf_mk nm hnm hh hl hnl,
    List.reverse_reverse]

/-- The full line regex on a canonical line: the number is parsed as
the integer it denotes and the name and id are captured verbatim. -/
theorem parseLine_mkLine (n : Nat) (nm idc : List Char) (hnm : nm ≠ [])
    (hh : ∀ c ∈ nm.take 1, pyWs c = false)
    (hl : ∀ c ∈ nm.reverse.take 1, pyWs c = false)
    (hnl : ∀ c ∈ nm, c.toNat ≠ 10)
    (hid : idc ≠ []) (hidw : ∀ c ∈ idc, wordHy c = true) :
    parseLine (mkLine n nm idc) = Option.some ⟨n, nm, idc⟩ := by
  have hstrip : pyStrip (mkLine n nm idc) = mkLine n nm idc := by
    apply pyStrip_eq_self
    · intro c hc
      simp [mkLine] at hc
      rw [hc]; decide
    · intro c hc
      have hr : (mkLine n nm idc).reverse
          = ')' :: (idc.reverse ++ ('(' :: (' ' :: (nm.reverse ++
              (' ' :: (']' :: ((natRepr n).reverse ++ ['[']))))))) := by
        simp [mkLine]
      rw [hr] at hc
      simp at hc
      rw [hc]; decide
  rw [parseLine, hstrip, mkLine]
  simp only [parseStripped]
  rw [takeWhile_append_cons (natRepr_digits n) (by decide : isDig ']' = false),
    dropWhile_append_cons (natRepr_digits n) (by decide : isDig ']' = false)]
  simp only [afterNumber, List.isEmpty_eq_false.2 (natRepr_ne_nil n),
    Bool.false_eq_true, if_false,
    matchTail_mk nm idc hnm hh hl hnl hid hidw, digitsToNat_natRepr]

/-- The accumulation loop of `_parse_display_list` appends exactly the
parses of the matching lines, in order. -/
theorem parseLoop_eq_filterMap :
    ∀ (lines : List (List Char)) (acc : List Display),
      parseLoop lines acc = acc ++ lines.filterMap parseLine := by
  intro lines
  induction lines with
  | nil => intro acc; simp [parseLoop]
  | cons l ls ih =>
    intro acc
    cases h : parseLine l with
    | none => simp [parseLoop, h, ih, List.filterMap_cons]
    | some d => simp [parseLoop, h, ih, List.filterMap_cons]

/-- C6: parsing a raw listing yields exactly one record per matching
line, in input-line order, with non-matching lines dropped without
affecting their neighbours (the result is the `filterMap` of the
per-line match over the split lines); and on a line of the canonical
shape `[<number>] <name> (<id>)` the number is parsed as an integer
and the name and id are captured verbatim. -/
theorem parse_display_list_spec :
    (∀ raw : List Char, parseDisplayList raw = (splitNL raw).filterMap parseLine) ∧
    (∀ (n : Nat) (nm idc : List Char), nm ≠ [] →
      (∀ c ∈ nm.take 1, pyWs c = false) →
      (∀ c ∈ nm.reverse.take 1, pyWs c = false) →
      (∀ c ∈ nm, c.toNat ≠ 10) →
      idc ≠ [] → (∀ c ∈ idc, wordHy c = true) →
      parseLine (mkLine n nm idc) = Option.some ⟨n, nm, idc⟩) := by
  constructor
  · intro raw
    rw [parseDisplayList, parseLoop_eq_filterMap]
    simp
  · intro n nm idc hnm hh hl hnl hid hidw
    exact parseLine_mkLine n nm idc hnm hh hl hnl hid hidw

/-- Witness for C6 at concrete inputs: a canonical line parses to its
record, and a non-matching line between two matching lines is dropped
without affecting them. -/
theorem parse_display_list_spec_witness :
    parseLine (mkLine 12 "Dell U27".toList "D-1".toList) =
      Option.some ⟨12, "Dell U27".toList, "D-1".toList⟩ ∧
    parseDisplayList "[1] A (a)\nnoise\n[2] B (b)".toList =
      (splitNL "[1] A (a)\nnoise\n[2] B (b)".toList).filterMap parseLine ∧
    (splitNL "[1] A (a)\nnoise\n[2] B (b)".toList).filterMap parseLine =
      [⟨1, ['A'], ['a']⟩, ⟨2, ['B'], ['b']⟩] := by
  refine ⟨?_, parse_display_list_spec.1 "[1] A (a)\nnoise\n[2] B (b)".toList, by decide⟩
  exact parse_display_list_spec.2 12 "Dell U27".toList "D-1".toList
    (by decide) (by decide) (by decide) (by decide) (by decide) (by decide)

end Ddcpy
